import Mathlib

/-!
Formal model of `src/web_scraper.py`.

The scraper pipeline (fetching, listing-page parsing, pagination, detail
enrichment) is embedded shallowly:

* HTML documents are abstracted to the query results this program performs
  on them (`Doc`, `Card`, `Elem`): the HTTP transport and the HTML parsing
  library are external collaborators, so a fetched page is represented by
  what `select` / `select_one` return for the selectors the program uses.
* `fetch : String -> Option Doc` models `WebScraper.fetch_page`
  (lines 37-46): `none` is a transport failure (the method returns `None`),
  `some doc` a successfully fetched and parsed page.  The politeness delay
  and logging are effects without data flow and are not modelled.
* Python exceptions are explicit: `PyErr` distinguishes the exception
  classes that the code can raise while parsing.  `except (AttributeError,
  ValueError)` at line 95 catches exactly `attributeError` and
  `valueError`; `typeError` / `keyError` escape.
* Python `float` values are modelled as exact rationals (`Rat`); the
  program only parses plain decimal numerals, where rational arithmetic is
  an exact model of the conversion.
-/

deriving instance DecidableEq for Except

/-- Python exception classes relevant to this program.  `attributeError`
arises from `None.text` (a selector matched nothing), `valueError` from
`float()` on a malformed numeral, `typeError` from subscripting `None`
(`None['attr']`), `keyError` from a missing attribute on a present tag. -/
inductive PyErr where
  | attributeError
  | valueError
  | typeError
  | keyError
deriving DecidableEq

/-- An HTML element as this program observes it: its `.text` content and
its attribute map (BeautifulSoup tag subscripting). -/
structure Elem where
  text : String
  attrs : List (String × String)
deriving DecidableEq

/-- Whitespace as stripped by Python `str.strip()` (ASCII fragment, which
covers every string this program manipulates). -/
def isPySpace (c : Char) : Bool :=
  c = ' ' || c = '\t' || c = '\n' || c = '\r'

/-- Models Python `str.strip()`: remove leading and trailing whitespace. -/
def pyStrip (s : String) : String :=
  String.mk (((s.toList.dropWhile isPySpace).reverse.dropWhile isPySpace).reverse)

/-- Models `str.replace('$', '')` at line 75: every `$` character is
removed (replacement by the empty string is exactly a character filter). -/
def stripDollar (s : String) : String :=
  String.mk (s.toList.filter (fun c => !(c = '$')))

/-- Models Python `str.lower()` (ASCII fragment). -/
def pyLower (s : String) : String :=
  String.mk (s.toList.map Char.toLower)

/-- Helper for substring containment: the first list is a prefix of the second. -/
def listHasPre : List Char → List Char → Bool
  | [], _ => true
  | _ :: _, [] => false
  | a :: as, b :: bs => a == b && listHasPre as bs

/-- Helper for substring containment: the needle occurs somewhere in the hay. -/
def listHasSub (needle : List Char) : List Char → Bool
  | [] => needle.isEmpty
  | b :: bs => listHasPre needle (b :: bs) || listHasSub needle bs

/-- Models Python `needle in hay` on strings (substring containment),
used at line 113 for `'in stock' in stock_status`. -/
def pyIn (needle hay : String) : Bool :=
  listHasSub needle.toList hay.toList

/-- Numeric value of a digit string, `none` unless it is a nonempty
all-digit list. -/
def natOfDigits (l : List Char) : Option Nat :=
  if l.isEmpty then none
  else if l.all Char.isDigit then
    some (l.foldl (fun a c => 10 * a + (c.toNat - 48)) 0)
  else none

/-- Split a character list at every `.` (models `str.split('.')` used to
analyse the shape of a decimal numeral). -/
def splitDot : List Char → List (List Char)
  | [] => [[]]
  | c :: rest =>
    if c = '.' then [] :: splitDot rest
    else
      match splitDot rest with
      | [] => [[c]]
      | h :: t => (c :: h) :: t

/-- Magnitude part of a Python `float()` literal: digits with at most one
decimal point, not both sides empty. -/
def pyFloatMag (l : List Char) : Option Rat :=
  match splitDot l with
  | [a] => (natOfDigits a).map (fun n => mkRat (Int.ofNat n) 1)
  | [a, b] =>
    if a.isEmpty && b.isEmpty then none
    else if (a.isEmpty || a.all Char.isDigit) && (b.isEmpty || b.all Char.isDigit) then
      some (mkRat (Int.ofNat ((natOfDigits a).getD 0 * 10 ^ b.length
        + (natOfDigits b).getD 0)) (10 ^ b.length))
    else none
  | _ => none

/-- Models Python `float(s)` on the plain decimal numerals this program
meets: surrounding whitespace is stripped, an optional sign is honoured,
and the magnitude is a decimal numeral.  `none` models a raised
`ValueError`.  (Scientific notation, `inf` and `nan` never occur in the
scraped fields and are outside the model.)  Values are exact rationals. -/
def pyFloat (s : String) : Option Rat :=
  match (pyStrip s).toList with
  | '-' :: rest => (pyFloatMag rest).map Rat.neg
  | '+' :: rest => pyFloatMag rest
  | l => pyFloatMag l

/-- Models `<select_one result>.text`: on `None` (selector matched
nothing) Python raises `AttributeError`; on a tag it yields the text. -/
def textOf : Option Elem → Except PyErr String
  | none => Except.error PyErr.attributeError
  | some e => Except.ok e.text

/-- Models `<select_one result>[key]`: subscripting `None` raises
`TypeError`; a present tag without the attribute raises `KeyError`. -/
def attrOf : Option Elem → String → Except PyErr String
  | none, _ => Except.error PyErr.typeError
  | some e, k =>
    match e.attrs.lookup k with
    | none => Except.error PyErr.keyError
    | some v => Except.ok v

/-- The `Product` dataclass (lines 20-28). -/
structure Product where
  name : String
  price : Rat
  description : String
  rating : Rat
  url : String
  category : Option String
  in_stock : Bool
deriving DecidableEq

/-- The dictionary returned by `_get_product_details`: each key is present
(`some`) or absent (`none`), matching `dict.get`. -/
structure Details where
  category : Option String
  in_stock : Option Bool
deriving DecidableEq

/-- One product card of a listing page, abstracted to the five
`select_one` queries lines 74-80 perform on it. -/
structure Card where
  productName : Option Elem
  productPrice : Option Elem
  productDescription : Option Elem
  productRating : Option Elem
  anchor : Option Elem
deriving DecidableEq

/-- A fetched document, abstracted to the queries this program performs:
`soup.select('.product-card')` (listing view, line 70) and the two
`select_one` queries of `_get_product_details` (detail view, lines
109-110). -/
structure Doc where
  cards : List Card
  breadcrumbLast : Option Elem
  stockStatus : Option Elem
deriving DecidableEq

/-- Models `urllib.parse.urljoin(base, rel)` (line 81) for the shapes this
program produces: a site base with no path joined with a site-relative
href.  URL resolution is an external collaborator; no claim depends on its
internals. -/
def urljoin (base rel : String) : String :=
  base ++ rel

/-- The `try` body of `_get_product_details` (lines 108-116): the category
text and the stock text are read inside one `try`; the dictionary is
assigned only after both succeed, and `except AttributeError: pass` leaves
it empty otherwise.  (`.text` on a present tag cannot raise, so
`AttributeError` from a `None` result is the only possible exception here
and it is always caught.) -/
def extractDetails (d : Doc) : Details :=
  match textOf d.breadcrumbLast with
  | Except.error _ => ⟨none, none⟩
  | Except.ok catText =>
    match textOf d.stockStatus with
    | Except.error _ => ⟨none, none⟩
    | Except.ok stText =>
      ⟨some (pyStrip catText), some (pyIn "in stock" (pyLower (pyStrip stText)))⟩

/-- `_get_product_details` (lines 101-118): fetch the detail page; a fetch
failure yields the empty dictionary, otherwise extract defensively. -/
def get_product_details (fetch : String → Option Doc) (url : String) : Details :=
  match fetch url with
  | none => ⟨none, none⟩
  | some d => extractDetails d

/-- The construction of the `Product` at lines 86-94: the parsed listing
fields with defaults `category := none`, `in_stock := true`, then the
enrichment dictionary applied via `details.get('category')` and
`details.get('in_stock', True)` — an enrichment field overrides only the
field it names. -/
def applyDetails (p : Product) (d : Details) : Product :=
  { p with category := d.category, in_stock := d.in_stock.getD true }

/-- Outcome of the `try` body for one card (lines 73-97): `ok` appends a
record, `skipped` is an exception caught by `except (AttributeError,
ValueError)` (log and continue), `fatal` is an uncaught exception
(`TypeError` / `KeyError`) that aborts `_parse_product_listing`. -/
inductive CardOutcome where
  | ok (p : Product)
  | skipped (e : PyErr)
  | fatal (e : PyErr)
deriving DecidableEq

/-- The per-card body of `_parse_product_listing` (lines 73-94), statement
by statement: name text (74), price text / `$`-strip / `float` (75-76),
description text (77), rating attribute subscript (78) and `float` (79),
anchor href subscript (80), `urljoin` (81), detail enrichment (84), and
the `Product` construction (86-94). -/
def parseCard (fetch : String → Option Doc) (base : String) (card : Card) : CardOutcome :=
  match textOf card.productName with
  | Except.error e => CardOutcome.skipped e
  | Except.ok nameText =>
    match textOf card.productPrice with
    | Except.error e => CardOutcome.skipped e
    | Except.ok priceText =>
      match pyFloat (stripDollar (pyStrip priceText)) with
      | none => CardOutcome.skipped PyErr.valueError
      | some price =>
        match textOf card.productDescription with
        | Except.error e => CardOutcome.skipped e
        | Except.ok descText =>
          match attrOf card.productRating "data-rating" with
          | Except.error e => CardOutcome.fatal e
          | Except.ok ratingStr =>
            match pyFloat ratingStr with
            | none => CardOutcome.skipped PyErr.valueError
            | some rating =>
              match attrOf card.anchor "href" with
              | Except.error e => CardOutcome.fatal e
              | Except.ok relUrl =>
                CardOutcome.ok (applyDetails
                  ⟨pyStrip nameText, price, pyStrip descText, rating,
                    urljoin base relUrl, none, true⟩
                  (get_product_details fetch (urljoin base relUrl)))

/-- `_parse_product_listing` (lines 67-99) over the selected cards: a
`skipped` card is logged and passed over (`continue`), an `ok` card
appends its record, a `fatal` card raises out of the function —
the records accumulated so far on that page are discarded with the local
`products` list. -/
def parse_product_listing (fetch : String → Option Doc) (base : String) :
    List Card → Except PyErr (List Product)
  | [] => Except.ok []
  | c :: cs =>
    match parseCard fetch base c with
    | CardOutcome.fatal e => Except.error e
    | CardOutcome.skipped _ => parse_product_listing fetch base cs
    | CardOutcome.ok p =>
      match parse_product_listing fetch base cs with
      | Except.error e => Except.error e
      | Except.ok ps => Except.ok (p :: ps)

/-- The listing URL built at line 52:
`f"{base}/products/{category}?page={page}" if category != "all" else
f"{base}/products?page={page}"`. -/
def listing_url (base category : String) (page : Int) : String :=
  if category ≠ "all" then base ++ "/products/" ++ category ++ "?page=" ++ toString page
  else base ++ "/products?page=" ++ toString page

/-- The `WebScraper` state this model tracks: `base_url` and
`scraped_data`, both set in `__init__` (lines 31-35); `scraped_data`
starts empty there, not at each `scrape_products` call. -/
structure WebScraper where
  base_url : String
  scraped_data : List Product
deriving DecidableEq

/-- `WebScraper.__init__` (lines 31-35): the accumulator is created empty
once, at construction. -/
def WebScraper.init (base_url : String) : WebScraper :=
  ⟨base_url, []⟩

/-- Observable outcome of a `scrape_products` call: the accumulator
afterwards (`data`), the listing URLs passed to `fetch_page` at line 55 in
order (`fetched`), and the exception escaping the call, if any
(`uncaught`). -/
structure LoopResult where
  data : List Product
  fetched : List String
  uncaught : Option PyErr
deriving DecidableEq

/-- The `while page <= max_pages` loop of `scrape_products` (lines
50-65), as structural recursion on the number of remaining iterations:
build the URL, fetch (recording the fetch), `break` on a failed fetch,
parse, `break` on an empty page, otherwise extend the accumulator and move
to the next page.  An uncaught exception from `_parse_product_listing`
ends the run with `uncaught = some e` (the pages already accumulated
remain). -/
def scrapeAux (fetch : String → Option Doc) (base category : String) :
    Nat → Int → List Product → List String → LoopResult
  | 0, _, acc, log => ⟨acc, log, none⟩
  | fuel + 1, page, acc, log =>
    match fetch (listing_url base category page) with
    | none => ⟨acc, log ++ [listing_url base category page], none⟩
    | some doc =>
      match parse_product_listing fetch base doc.cards with
      | Except.error e => ⟨acc, log ++ [listing_url base category page], some e⟩
      | Except.ok [] => ⟨acc, log ++ [listing_url base category page], none⟩
      | Except.ok (p :: ps) =>
        scrapeAux fetch base category fuel (page + 1) (acc ++ (p :: ps))
          (log ++ [listing_url base category page])

/-- `scrape_products` (lines 48-65): `page` starts at 1 and increments,
so the loop `while page <= max_pages` runs at most `max_pages.toNat`
iterations (none when `max_pages <= 0`); the fuel realizes exactly that
bound while `page` itself is threaded for URL building. -/
def scrape_products (fetch : String → Option Doc) (s : WebScraper)
    (category : String) (max_pages : Int) : LoopResult :=
  scrapeAux fetch s.base_url category max_pages.toNat 1 s.scraped_data []

/-- Page `p` lets the loop continue: its fetch succeeds and its cards
parse (no uncaught exception) to a nonempty record list. -/
def pageGood (fetch : String → Option Doc) (base category : String) (p : Int) : Prop :=
  ∃ doc prods, fetch (listing_url base category p) = some doc ∧
    parse_product_listing fetch base doc.cards = Except.ok prods ∧ prods ≠ []

/-- Page `p` ends the loop: its fetch fails, or its cards parse to the
empty list, or parsing raises an uncaught exception. -/
def pageTerminal (fetch : String → Option Doc) (base category : String) (p : Int) : Prop :=
  fetch (listing_url base category p) = none ∨
  ∃ doc, fetch (listing_url base category p) = some doc ∧
    (parse_product_listing fetch base doc.cards = Except.ok [] ∨
     ∃ e, parse_product_listing fetch base doc.cards = Except.error e)

/-- The listing URLs of `m` consecutive pages starting at `page`. -/
def pagesURLs (base category : String) (page : Int) : Nat → List String
  | 0 => []
  | m + 1 => listing_url base category page :: pagesURLs base category (page + 1) m

/-- A fetch oracle on which every request fails (every `fetch_page` call
returns `None`). -/
def fetchNone : String → Option Doc := fun _ => none

/-- A fully well-formed product card: every selector matches and both
numeric fields convert. -/
def goodCard : Card :=
  ⟨some ⟨"Widget", []⟩, some ⟨"$5.0", []⟩, some ⟨"Nice", []⟩,
   some ⟨"", [("data-rating", "4.5")]⟩, some ⟨"", [("href", "/p1")]⟩⟩

/-- The record `goodCard` yields against base `"b"` when its detail fetch
fails: enrichment defaults `category := none`, `in_stock := true`. -/
def prodWidget : Product :=
  ⟨"Widget", mkRat 5 1, "Nice", mkRat 9 2, "b/p1", none, true⟩

/-- A card whose name and price are fine but whose
`.product-description` selector matches nothing. -/
def cardNoDesc : Card :=
  ⟨some ⟨"Widget", []⟩, some ⟨"$5.0", []⟩, none,
   some ⟨"", [("data-rating", "4.5")]⟩, some ⟨"", [("href", "/p1")]⟩⟩

/-- A card whose `.product-rating` selector matches nothing (all other
fields fine): line 78 subscripts `None` and raises `TypeError`. -/
def cardNoRating : Card :=
  ⟨some ⟨"A", []⟩, some ⟨"$1", []⟩, some ⟨"d", []⟩, none,
   some ⟨"", [("href", "/a")]⟩⟩

/-- A card whose price text is bare `"$"`: after the `$`-strip, `float`
sees the empty string and raises `ValueError`. -/
def dollarCard : Card :=
  ⟨some ⟨"D", []⟩, some ⟨"$", []⟩, some ⟨"d", []⟩,
   some ⟨"", [("data-rating", "4")]⟩, some ⟨"", [("href", "/d")]⟩⟩

/-- A listing page holding exactly `goodCard`. -/
def demoDoc : Doc := ⟨[goodCard], none, none⟩

/-- A fetch oracle: page 1 of the catalog (base `"b"`) serves `demoDoc`,
every other request fails. -/
def demoFetch : String → Option Doc :=
  fun u => if u = "b/products?page=1" then some demoDoc else none

/-- A detail page with a breadcrumb but no `.stock-status` element. -/
def detailNoStock : Doc := ⟨[], some ⟨"Books", []⟩, none⟩

/-- A detail page where both enrichment selectors match. -/
def detailBoth : Doc := ⟨[], some ⟨" Books ", []⟩, some ⟨"In Stock", []⟩⟩

/-- Characterization of a successful card parse: the `try` body reaches
the `append` exactly when all five listing extractions and both numeric
conversions succeed, and the record appended is the parsed fields merged
with the detail enrichment of the resolved URL. -/
theorem parseCard_ok (fetch : String → Option Doc) (base : String) (c : Card) (p : Product) :
    parseCard fetch base c = CardOutcome.ok p ↔
    ∃ n t q d r rq u,
      textOf c.productName = Except.ok n ∧
      textOf c.productPrice = Except.ok t ∧
      pyFloat (stripDollar (pyStrip t)) = some q ∧
      textOf c.productDescription = Except.ok d ∧
      attrOf c.productRating "data-rating" = Except.ok r ∧
      pyFloat r = some rq ∧
      attrOf c.anchor "href" = Except.ok u ∧
      p = applyDetails ⟨pyStrip n, q, pyStrip d, rq, urljoin base u, none, true⟩
            (get_product_details fetch (urljoin base u)) := by
  constructor
  · intro h
    unfold parseCard at h
    cases hn : textOf c.productName with
    | error e => rw [hn] at h; simp at h
    | ok n =>
      rw [hn] at h; simp only at h
      cases ht : textOf c.productPrice with
      | error e => rw [ht] at h; simp at h
      | ok t =>
        rw [ht] at h; simp only at h
        cases hq : pyFloat (stripDollar (pyStrip t)) with
        | none => rw [hq] at h; simp at h
        | some q =>
          rw [hq] at h; simp only at h
          cases hd : textOf c.productDescription with
          | error e => rw [hd] at h; simp at h
          | ok d =>
            rw [hd] at h; simp only at h
            cases hr : attrOf c.productRating "data-rating" with
            | error e => rw [hr] at h; simp at h
            | ok r =>
              rw [hr] at h; simp only at h
              cases hrq : pyFloat r with
              | none => rw [hrq] at h; simp at h
              | some rq =>
                rw [hrq] at h; simp only at h
                cases hu : attrOf c.anchor "href" with
                | error e => rw [hu] at h; simp at h
                | ok u =>
                  rw [hu] at h; simp only at h
                  exact ⟨n, t, q, d, r, rq, u, rfl, rfl, hq, rfl, rfl, hrq, rfl, (CardOutcome.ok.inj h).symm⟩
  · rintro ⟨n, t, q, d, r, rq, u, hn, ht, hq, hd, hr, hrq, hu, rfl⟩
    unfold parseCard
    simp only [hn, ht, hq, hd, hr, hrq, hu]

/-- A successful card parse takes its `category` and `in_stock` from the
enrichment of the record's own URL, with `dict.get` defaults. -/
theorem parseCard_ok_enrich (fetch : String → Option Doc) (base : String) (c : Card)
    (p : Product) (hp : parseCard fetch base c = CardOutcome.ok p) :
    p.category = (get_product_details fetch p.url).category ∧
    p.in_stock = ((get_product_details fetch p.url).in_stock).getD true := by
  obtain ⟨n, t, q, d, r, rq, u, _, _, _, _, _, _, _, rfl⟩ := (parseCard_ok fetch base c p).1 hp
  simp [applyDetails]

/-- Absence of the `.stock-status` element empties the whole enrichment
dictionary (the single `try` of lines 108-116 discards `category` too). -/
theorem extractDetails_stockNone (d : Doc) (h : d.stockStatus = none) :
    extractDetails d = ⟨none, none⟩ := by
  unfold extractDetails
  cases hb : textOf d.breadcrumbLast with
  | error e => rfl
  | ok catText => rw [h]; rfl

/-- Skipping a card is local: a card whose exception is caught contributes
nothing and leaves the rest of the page's outcome unchanged. -/
theorem parse_skip_local (fetch : String → Option Doc) (base : String) (c : Card)
    (e : PyErr) (l1 l2 : List Card) (hc : parseCard fetch base c = CardOutcome.skipped e) :
    parse_product_listing fetch base (l1 ++ c :: l2)
      = parse_product_listing fetch base (l1 ++ l2) := by
  induction l1 with
  | nil => simp [parse_product_listing, hc]
  | cons a l1 ih =>
    simp only [List.cons_append]
    unfold parse_product_listing
    cases ha : parseCard fetch base a with
    | fatal e' => rfl
    | skipped e' => exact ih
    | ok p => rw [ih]

/-- The loop accumulator only ever grows at the end: from any loop state,
the final `scraped_data` is the entering accumulator plus a suffix. -/
theorem scrapeAux_data (fetch : String → Option Doc) (base category : String) :
    ∀ (fuel : Nat) (page : Int) (acc : List Product) (log : List String),
    ∃ t, (scrapeAux fetch base category fuel page acc log).data = acc ++ t := by
  intro fuel
  induction fuel with
  | zero => intro page acc log; exact ⟨[], by simp [scrapeAux]⟩
  | succ fuel ih =>
    intro page acc log
    cases hf : fetch (listing_url base category page) with
    | none => exact ⟨[], by simp [scrapeAux, hf]⟩
    | some doc =>
      cases hp : parse_product_listing fetch base doc.cards with
      | error e => exact ⟨[], by simp [scrapeAux, hf, hp]⟩
      | ok ps =>
        cases ps with
        | nil => exact ⟨[], by simp [scrapeAux, hf, hp]⟩
        | cons p ps' =>
          obtain ⟨t, ht⟩ := ih (page + 1) (acc ++ (p :: ps')) (log ++ [listing_url base category page])
          refine ⟨(p :: ps') ++ t, ?_⟩
          rw [show scrapeAux fetch base category (fuel + 1) page acc log
              = scrapeAux fetch base category fuel (page + 1) (acc ++ (p :: ps'))
                  (log ++ [listing_url base category page]) from by simp [scrapeAux, hf, hp]]
          rw [ht, List.append_assoc]

/-- `pagesURLs` lists one URL per page. -/
theorem pagesURLs_length (base category : String) :
    ∀ (m : Nat) (page : Int), (pagesURLs base category page m).length = m := by
  intro m
  induction m with
  | zero => intro page; rfl
  | succ m ih => intro page; simp [pagesURLs, ih]

/-- The URL at position `i` of `pagesURLs` is the listing URL of page
`page + i`. -/
theorem pagesURLs_get (base category : String) :
    ∀ (m : Nat) (page : Int) (i : Nat) (h : i < (pagesURLs base category page m).length),
    (pagesURLs base category page m).get ⟨i, h⟩ = listing_url base category (page + i) := by
  intro m
  induction m with
  | zero => intro page i h; simp [pagesURLs] at h
  | succ m ih =>
    intro page i h
    cases i with
    | zero => simp [pagesURLs]
    | succ j =>
      have hj : j < (pagesURLs base category (page + 1) m).length := by
        simp only [pagesURLs, List.length_cons] at h
        omega
      have := ih (page + 1) j hj
      simp only [pagesURLs, List.get_cons_succ]
      rw [this]
      congr 1
      push_cast
      ring

/-- Trace of the pagination loop: from any loop state with `fuel`
remaining iterations, some `m ≤ fuel` pages are fetched, consecutively
starting at `page`, each once; every non-final fetched page was good, and
if the loop gave up before its fuel ran out, the last fetched page was a
terminal one. -/
theorem scrapeAux_fetch_spec (fetch : String → Option Doc) (base category : String) :
    ∀ (fuel : Nat) (page : Int) (acc : List Product) (log : List String),
    ∃ m : Nat, m ≤ fuel ∧
      (scrapeAux fetch base category fuel page acc log).fetched
        = log ++ pagesURLs base category page m ∧
      (∀ k : Nat, k + 1 < m → pageGood fetch base category (page + k)) ∧
      (m < fuel → ∃ k : Nat, m = k + 1 ∧ pageTerminal fetch base category (page + k)) := by
  intro fuel
  induction fuel with
  | zero =>
    intro page acc log
    exact ⟨0, Nat.le_refl 0, by simp [scrapeAux, pagesURLs],
      fun k hk => absurd hk (by omega), fun h => absurd h (by omega)⟩
  | succ fuel ih =>
    intro page acc log
    have hpage0 : page + ((0 : Nat) : Int) = page := by simp
    cases hf : fetch (listing_url base category page) with
    | none =>
      refine ⟨1, by omega, ?_, fun k hk => absurd hk (by omega), fun _ => ⟨0, rfl, ?_⟩⟩
      · simp [scrapeAux, hf, pagesURLs]
      · rw [hpage0]; exact Or.inl hf
    | some doc =>
      cases hp : parse_product_listing fetch base doc.cards with
      | error e =>
        refine ⟨1, by omega, ?_, fun k hk => absurd hk (by omega), fun _ => ⟨0, rfl, ?_⟩⟩
        · simp [scrapeAux, hf, hp, pagesURLs]
        · rw [hpage0]; exact Or.inr ⟨doc, hf, Or.inr ⟨e, hp⟩⟩
      | ok ps =>
        cases ps with
        | nil =>
          refine ⟨1, by omega, ?_, fun k hk => absurd hk (by omega), fun _ => ⟨0, rfl, ?_⟩⟩
          · simp [scrapeAux, hf, hp, pagesURLs]
          · rw [hpage0]; exact Or.inr ⟨doc, hf, Or.inl hp⟩
        | cons p ps' =>
          obtain ⟨m, hm, hfetch, hgood, hterm⟩ :=
            ih (page + 1) (acc ++ (p :: ps')) (log ++ [listing_url base category page])
          refine ⟨m + 1, by omega, ?_, ?_, ?_⟩
          · rw [show scrapeAux fetch base category (fuel + 1) page acc log
                = scrapeAux fetch base category fuel (page + 1) (acc ++ (p :: ps'))
                    (log ++ [listing_url base category page]) from by simp [scrapeAux, hf, hp]]
            rw [hfetch]
            simp [pagesURLs]
          · intro k hk
            cases k with
            | zero =>
              rw [hpage0]
              exact ⟨doc, p :: ps', hf, hp, by simp⟩
            | succ j =>
              have hj := hgood j (by omega)
              have harith : page + 1 + (j : Int) = page + ((j + 1 : Nat) : Int) := by
                push_cast; ring
              rwa [harith] at hj
          · intro hlt
            obtain ⟨k, hk, ht⟩ := hterm (by omega)
            refine ⟨k + 1, by omega, ?_⟩
            have harith : page + 1 + (k : Int) = page + ((k + 1 : Nat) : Int) := by
              push_cast; ring
            rwa [harith] at ht

/-- Claim C1, counterexample: on `cardNoDesc` the name and the price both
parse successfully (name `"Widget"`, price 5), yet no Record is added —
the missing `.product-description` raises `AttributeError` at line 77 and
the whole card is skipped, contradicting "a Record is added if and only if
its name and price parse successfully; failure of any other field
(description, ...) degrades that field to its default rather than aborting
the record". -/
theorem c1_counterexample :
    textOf cardNoDesc.productName = Except.ok "Widget" ∧
    textOf cardNoDesc.productPrice = Except.ok "$5.0" ∧
    pyFloat (stripDollar (pyStrip "$5.0")) = some (mkRat 5 1) ∧
    parse_product_listing fetchNone "b" [cardNoDesc] = Except.ok [] :=
  ⟨rfl, rfl, by decide, by decide⟩

/-- Claim C1, amended: a card contributes a Record if and only if all five
listing extractions succeed — name, price (text and conversion),
description, rating (attribute and conversion) and detail link — not just
name and price; only the enrichment degrades to its defaults (`category`
and `in_stock` are taken from the enrichment of the record's own URL with
`dict.get` defaults) rather than aborting the record. -/
theorem c1_amended (fetch : String → Option Doc) (base : String) (c : Card) :
    ((∃ p, parseCard fetch base c = CardOutcome.ok p) ↔
      ((∃ n, textOf c.productName = Except.ok n) ∧
       (∃ t q, textOf c.productPrice = Except.ok t ∧
         pyFloat (stripDollar (pyStrip t)) = some q) ∧
       (∃ d, textOf c.productDescription = Except.ok d) ∧
       (∃ r q, attrOf c.productRating "data-rating" = Except.ok r ∧ pyFloat r = some q) ∧
       (∃ u, attrOf c.anchor "href" = Except.ok u))) ∧
    (∀ p, parseCard fetch base c = CardOutcome.ok p →
      p.category = (get_product_details fetch p.url).category ∧
      p.in_stock = ((get_product_details fetch p.url).in_stock).getD true) := by
  constructor
  · constructor
    · rintro ⟨p, hp⟩
      obtain ⟨n, t, q, d, r, rq, u, hn, ht, hq, hd, hr, hrq, hu, _⟩ :=
        (parseCard_ok fetch base c p).1 hp
      exact ⟨⟨n, hn⟩, ⟨t, q, ht, hq⟩, ⟨d, hd⟩, ⟨r, rq, hr, hrq⟩, ⟨u, hu⟩⟩
    · rintro ⟨⟨n, hn⟩, ⟨t, q, ht, hq⟩, ⟨d, hd⟩, ⟨r, rq, hr, hrq⟩, ⟨u, hu⟩⟩
      exact ⟨_, (parseCard_ok fetch base c _).2
        ⟨n, t, q, d, r, rq, u, hn, ht, hq, hd, hr, hrq, hu, rfl⟩⟩
  · intro p hp
    exact parseCard_ok_enrich fetch base c p hp

/-- Claim C1, witness: the amended criterion applied to the concrete
`goodCard` (all five extractions succeed, detail fetch fails) yields a
Record. -/
theorem c1_amended_witness :
    ∃ p, parseCard fetchNone "b" goodCard = CardOutcome.ok p :=
  (c1_amended fetchNone "b" goodCard).1.2
    ⟨⟨"Widget", rfl⟩, ⟨"$5.0", mkRat 5 1, rfl, by decide⟩, ⟨"Nice", rfl⟩,
     ⟨"4.5", mkRat 9 2, rfl, by decide⟩, ⟨"/p1", rfl⟩⟩

/-- Claim C2, counterexample: on `detailNoStock` the breadcrumb selector
matches (`"Books"`) and only the stock-status selector is absent, yet the
returned enrichment omits BOTH fields — `category` is not returned,
contradicting "only the corresponding field is omitted ... while the other
field is still returned". -/
theorem c2_counterexample :
    detailNoStock.breadcrumbLast = some ⟨"Books", []⟩ ∧
    detailNoStock.stockStatus = none ∧
    (extractDetails detailNoStock).category = none ∧
    extractDetails detailNoStock = ⟨none, none⟩ :=
  ⟨rfl, rfl, rfl, rfl⟩

/-- Claim C2, amended: the two fields are extracted in one `try`, not
independently — if either selector is absent the entire enrichment is
empty (both fields omitted); when both selectors match, both fields are
returned; the only possible failure (`AttributeError`) is caught locally
and never raised to the caller, as evidenced by `extractDetails` being a
total function. -/
theorem c2_amended (d : Doc) :
    ((d.breadcrumbLast = none ∨ d.stockStatus = none) → extractDetails d = ⟨none, none⟩) ∧
    (∀ eb es, d.breadcrumbLast = some eb → d.stockStatus = some es →
      extractDetails d =
        ⟨some (pyStrip eb.text), some (pyIn "in stock" (pyLower (pyStrip es.text)))⟩) := by
  constructor
  · rintro (hb | hs)
    · unfold extractDetails
      rw [hb]
      rfl
    · exact extractDetails_stockNone d hs
  · intro eb es hb hs
    unfold extractDetails
    rw [hb, hs]
    rfl

/-- Claim C2, witness: on a detail page with both selectors present the
amended theorem returns both fields (`"Books"`, in stock). -/
theorem c2_amended_witness :
    extractDetails detailBoth = ⟨some "Books", some true⟩ := by
  have h := (c2_amended detailBoth).2 ⟨" Books ", []⟩ ⟨"In Stock", []⟩ rfl rfl
  rw [h]
  decide

/-- Claim C3: `scrape_products` (a total function, so it terminates for
every category and `max_pages`) fetches the listing URLs of consecutive
pages 1, 2, ..., m — each page at most once, so a failed page is never
re-attempted — with `m ≤ max_pages.toNat`, hence at most `max_pages`
listing fetches; every non-final fetched page was good (fetch succeeded
and produced records), so the loop stops immediately at the first page
whose fetch returns Absent or that yields zero cards (witnessed by the
terminal condition whenever the loop gave up before the page ceiling). -/
theorem c3 (fetch : String → Option Doc) (s : WebScraper) (category : String)
    (max_pages : Int) :
    ∃ m : Nat, m ≤ max_pages.toNat ∧
      (scrape_products fetch s category max_pages).fetched.length ≤ max_pages.toNat ∧
      (scrape_products fetch s category max_pages).fetched
        = pagesURLs s.base_url category 1 m ∧
      (∀ k : Nat, k + 1 < m → pageGood fetch s.base_url category (1 + k)) ∧
      (m < max_pages.toNat →
        ∃ k : Nat, m = k + 1 ∧ pageTerminal fetch s.base_url category (1 + k)) := by
  obtain ⟨m, hm, hfetch, hgood, hterm⟩ :=
    scrapeAux_fetch_spec fetch s.base_url category max_pages.toNat 1 s.scraped_data []
  have he : (scrape_products fetch s category max_pages).fetched
      = pagesURLs s.base_url category 1 m := by
    unfold scrape_products
    rw [hfetch]
    simp
  refine ⟨m, hm, ?_, he, hgood, hterm⟩
  rw [he, pagesURLs_length]
  exact hm

/-- Claim C3, witness: the theorem instantiated at a concrete oracle where
page 1 succeeds with one record and page 2 fails to fetch, with a ceiling
of 3 pages. -/
theorem c3_witness :
    ∃ m : Nat, m ≤ (3 : Int).toNat ∧
      (scrape_products demoFetch (WebScraper.init "b") "all" 3).fetched.length
        ≤ (3 : Int).toNat ∧
      (scrape_products demoFetch (WebScraper.init "b") "all" 3).fetched
        = pagesURLs (WebScraper.init "b").base_url "all" 1 m ∧
      (∀ k : Nat, k + 1 < m → pageGood demoFetch (WebScraper.init "b").base_url "all" (1 + k)) ∧
      (m < (3 : Int).toNat →
        ∃ k : Nat, m = k + 1 ∧
          pageTerminal demoFetch (WebScraper.init "b").base_url "all" (1 + k)) :=
  c3 demoFetch (WebScraper.init "b") "all" 3

/-- Claim C4, code bug, evaluated at the failing input: a card whose
`.product-rating` selector matches nothing raises `TypeError` at line 78
(`None['data-rating']`), which `except (AttributeError, ValueError)` does
not catch — instead of the card being skipped, the whole page aborts and
the valid card after it (and the records already parsed on the page) are
lost. -/
theorem c4_code_bug_eval :
    parseCard fetchNone "b" cardNoRating = CardOutcome.fatal PyErr.typeError ∧
    parse_product_listing fetchNone "b" [goodCard, cardNoRating, goodCard]
      = Except.error PyErr.typeError :=
  ⟨by decide, by decide⟩

/-- Claim C5, counterexample: the accumulator is created in `__init__`,
not at the start of every scrape call — a second `scrape_products` call on
the same scraper starts from the previous data, so the records it holds
afterwards are not exactly those collected during that invocation (one
page with one record per run, yet two records after the second run). -/
theorem c5_counterexample :
    (scrape_products demoFetch (WebScraper.init "b") "all" 1).data = [prodWidget] ∧
    (scrape_products demoFetch ⟨"b", [prodWidget]⟩ "all" 1).data
      = [prodWidget, prodWidget] :=
  ⟨by decide, by decide⟩

/-- Claim C5, amended: the accumulator is created empty when the scraper
is constructed (not at each scrape call); during a run it is append-only —
from every intermediate loop state the final data is the entering
accumulator plus a suffix, so nothing is ever removed, reordered or
mutated — and each `scrape_products` call appends the records it collects
to whatever the accumulator already held. -/
theorem c5_amended :
    (∀ b, (WebScraper.init b).scraped_data = []) ∧
    (∀ (fetch : String → Option Doc) (base category : String) (fuel : Nat) (page : Int)
        (acc : List Product) (log : List String),
      ∃ t, (scrapeAux fetch base category fuel page acc log).data = acc ++ t) ∧
    (∀ (fetch : String → Option Doc) (s : WebScraper) (category : String) (max_pages : Int),
      ∃ t, (scrape_products fetch s category max_pages).data = s.scraped_data ++ t) := by
  refine ⟨fun b => rfl, fun fetch base category fuel page acc log =>
    scrapeAux_data fetch base category fuel page acc log, ?_⟩
  intro fetch s category max_pages
  exact scrapeAux_data fetch s.base_url category max_pages.toNat 1 s.scraped_data []

/-- Claim C6: whether a successfully parsed card produces a Record does
not depend on the detail fetch at all (the same card parses under any
oracle — no error propagates upward from enrichment); and whenever the
detail fetch fails, or the enrichment is empty, or the detail page lacks a
stock-status element, the Record carries `category = none` and
`in_stock = true` (not false). -/
theorem c6 (fetch fetch2 : String → Option Doc) (base : String) (c : Card) (p : Product)
    (hp : parseCard fetch base c = CardOutcome.ok p) :
    (∃ p2, parseCard fetch2 base c = CardOutcome.ok p2) ∧
    (fetch p.url = none → p.category = none ∧ p.in_stock = true) ∧
    (get_product_details fetch p.url = ⟨none, none⟩ →
      p.category = none ∧ p.in_stock = true) ∧
    (∀ d : Doc, fetch p.url = some d → d.stockStatus = none →
      p.category = none ∧ p.in_stock = true) := by
  obtain ⟨hc, hs⟩ := parseCard_ok_enrich fetch base c p hp
  have hdef : get_product_details fetch p.url = ⟨none, none⟩ →
      p.category = none ∧ p.in_stock = true := by
    intro hd
    rw [hd] at hc hs
    exact ⟨hc, hs⟩
  refine ⟨?_, ?_, hdef, ?_⟩
  · obtain ⟨n, t, q, d, r, rq, u, hn, ht, hq, hd, hr, hrq, hu, _⟩ :=
      (parseCard_ok fetch base c p).1 hp
    exact ⟨_, (parseCard_ok fetch2 base c _).2
      ⟨n, t, q, d, r, rq, u, hn, ht, hq, hd, hr, hrq, hu, rfl⟩⟩
  · intro hf
    apply hdef
    unfold get_product_details
    rw [hf]
  · intro d hf hstock
    apply hdef
    unfold get_product_details
    rw [hf]
    exact extractDetails_stockNone d hstock

/-- Claim C6, witness: `goodCard` against an always-failing oracle still
produces `prodWidget`, whose enrichment fields are the defaults. -/
theorem c6_witness : prodWidget.category = none ∧ prodWidget.in_stock = true :=
  (c6 fetchNone fetchNone "b" goodCard prodWidget (by decide)).2.1 rfl

/-- Claim C7: the price text pipeline of lines 75-76 turns `"$19.99"` into
the exact numeric value 19.99; a card whose exception is caught (such as
the `ValueError` from a `"$"` price) is skipped without affecting the rest
of the page, and a card whose name parses but whose price text strips to
`"$"` is skipped with exactly that `ValueError`. -/
theorem c7 :
    (pyFloat (stripDollar (pyStrip "$19.99")) = some ((1999 : Rat) / 100)) ∧
    (∀ (fetch : String → Option Doc) (base : String) (c : Card) (e : PyErr)
        (l1 l2 : List Card), parseCard fetch base c = CardOutcome.skipped e →
      parse_product_listing fetch base (l1 ++ c :: l2)
        = parse_product_listing fetch base (l1 ++ l2)) ∧
    (∀ (fetch : String → Option Doc) (base : String) (c : Card) (n t : String),
      textOf c.productName = Except.ok n → textOf c.productPrice = Except.ok t →
      pyStrip t = "$" → parseCard fetch base c = CardOutcome.skipped PyErr.valueError) := by
  refine ⟨?_, parse_skip_local, ?_⟩
  · have h : ((1999 : Rat) / 100) = mkRat 1999 100 := by
      norm_num [Rat.mkRat_eq_div]
    rw [h]
    decide
  · intro fetch base c n t hn ht hdollar
    unfold parseCard
    simp only [hn, ht, hdollar]
    rw [show pyFloat (stripDollar "$") = none from by decide]

/-- Claim C7, witness: the skip rule applied to the concrete `dollarCard`
(price text `"$"`) sitting between two valid cards. -/
theorem c7_witness :
    parseCard fetchNone "b" dollarCard = CardOutcome.skipped PyErr.valueError ∧
    parse_product_listing fetchNone "b" [goodCard, dollarCard, goodCard]
      = parse_product_listing fetchNone "b" [goodCard, goodCard] := by
  have hskip := (c7).2.2 fetchNone "b" dollarCard "D" "$" rfl rfl (by decide)
  exact ⟨hskip, (c7).2.1 fetchNone "b" dollarCard PyErr.valueError [goodCard] [goodCard] hskip⟩

/-- Claim C8: enrichment is deterministic (the embedding of
`_get_product_details` is a pure function, so re-running it on the same
detail content is definitionally the same value), and the merge of an
enrichment into a record's fields (`details.get('category')`,
`details.get('in_stock', True)` at lines 92-93) is idempotent:
re-applying the same enrichment leaves the record unchanged. -/
theorem c8 (fetch : String → Option Doc) (url : String) (d : Doc) (p : Product) :
    extractDetails d = extractDetails d ∧
    get_product_details fetch url = get_product_details fetch url ∧
    applyDetails (applyDetails p (get_product_details fetch url))
        (get_product_details fetch url)
      = applyDetails p (get_product_details fetch url) ∧
    applyDetails (applyDetails p (extractDetails d)) (extractDetails d)
      = applyDetails p (extractDetails d) :=
  ⟨rfl, rfl, rfl, rfl⟩

/-- Claim C9: every listing URL the driver fetches has exactly the
documented form — position `i` of the fetch trace (page `1 + i`) is
`{base}/products?page={n}` for the default category `"all"` and
`{base}/products/{category}?page={n}` otherwise. -/
theorem c9 (fetch : String → Option Doc) (s : WebScraper) (category : String)
    (max_pages : Int) (i : Nat)
    (h : i < (scrape_products fetch s category max_pages).fetched.length) :
    (scrape_products fetch s category max_pages).fetched.get ⟨i, h⟩ =
      (if category = "all"
       then s.base_url ++ "/products?page=" ++ toString (1 + (i : Int))
       else s.base_url ++ "/products/" ++ category ++ "?page=" ++ toString (1 + (i : Int))) := by
  obtain ⟨m, hm, hfetch, _, _⟩ :=
    scrapeAux_fetch_spec fetch s.base_url category max_pages.toNat 1 s.scraped_data []
  have he : (scrape_products fetch s category max_pages).fetched
      = pagesURLs s.base_url category 1 m := by
    unfold scrape_products
    rw [hfetch]
    simp
  rw [List.get_of_eq he ⟨i, h⟩, pagesURLs_get s.base_url category m 1 i _]
  by_cases hc : category = "all" <;> simp [listing_url, hc]

/-- Claim C9, witness: the first fetched URL of a concrete catalog run is
`b/products?page=1`. -/
theorem c9_witness :
    (scrape_products demoFetch (WebScraper.init "b") "all" 2).fetched.get ⟨0, by decide⟩ =
      (if "all" = "all"
       then (WebScraper.init "b").base_url ++ "/products?page="
         ++ toString (1 + ((0 : Nat) : Int))
       else (WebScraper.init "b").base_url ++ "/products/" ++ "all" ++ "?page="
         ++ toString (1 + ((0 : Nat) : Int))) :=
  c9 demoFetch (WebScraper.init "b") "all" 2 0 (by decide)

/-- Claim C10: `while page <= max_pages` with `page` starting at 1 is
checked before the first fetch, so for `max_pages ≤ 0` the call performs
no listing fetch, raises nothing, and leaves the accumulator exactly as it
was (no record appended, and since listing parsing never runs, no detail
fetch is issued either). -/
theorem c10 (fetch : String → Option Doc) (s : WebScraper) (category : String)
    (max_pages : Int) (h : max_pages ≤ 0) :
    scrape_products fetch s category max_pages = ⟨s.scraped_data, [], none⟩ := by
  unfold scrape_products
  rw [Int.toNat_of_nonpos h]
  rfl

/-- Claim C10, witness: a concrete call with `max_pages = -2` fetches
nothing and returns the constructor-time (empty) accumulator. -/
theorem c10_witness :
    scrape_products fetchNone (WebScraper.init "b") "all" (-2)
      = ⟨(WebScraper.init "b").scraped_data, [], none⟩ :=
  c10 fetchNone (WebScraper.init "b") "all" (-2) (by decide)
